import Mathlib

/-!
Verification of the VoiceOS command-execution engine against its spec.

Shallow embedding of the Python sources:
  backend/ui_cache.py            (UICache)
  backend/hybrid_router.py       (HybridRouter.route and its helpers)
  backend/core/agent/safety.py   (SafetyGuard.requires_confirmation)
  backend/core/agent/kernel.py   (AgentKernel: plan / execute / verify /
                                  adjust loop, process_command,
                                  process_with_confirmation)

Python strings are modelled as `String` / `List Char`; Python's `time.time()`
is an explicit `now : Int` parameter; the regular expressions of the sources
are translated into explicit backtracking matchers over `List Char`;
collaborators (screen parser, OS controller) are parameters of the kernel,
and every controller invocation is recorded in a call trace so that
"never calls the input-injection collaborator" is a statement about the
returned trace.
-/

/-! ### Character and substring helpers (Python `str` operations) -/

/-- Python `s.lower()` restricted to the character-wise case map. -/
def lowerChars (s : List Char) : List Char := s.map Char.toLower

/-- Python `s.strip()`: drop whitespace at both ends. -/
def trimChars (s : List Char) : List Char :=
  ((s.dropWhile Char.isWhitespace).reverse.dropWhile Char.isWhitespace).reverse

/-- Python `sub in s` (substring containment; empty `sub` is contained). -/
def containsSub (sub : List Char) : List Char → Bool
  | [] => sub.isEmpty
  | c :: cs => sub.isPrefixOf (c :: cs) || containsSub sub cs

/-- A regex word character (`\w`), ASCII fragment. -/
def isWordChar (c : Char) : Bool := c.isAlphanum || c = '_'

/-! ### Regex building blocks

Each Python pattern of the sources is compiled by hand into a matcher over
`List Char`.  `\s+` is represented by the list of suffixes it can leave, in
the greedy (longest-first) backtracking order of the `re` engine. -/

/-- The suffixes `\s+` can leave of `s`, greedy order (maximal eaten first).
Empty when `s` does not start with whitespace. -/
def wsAlts (s : List Char) : List (List Char) :=
  let w := (s.takeWhile Char.isWhitespace).length
  (List.range w).map (fun i => s.drop (w - i))

/-- Match a literal then `\s+`: all continuation points, greedy order. -/
def litWsAlts (lit : List Char) (s : List Char) : List (List Char) :=
  if lit.isPrefixOf s then wsAlts (s.drop lit.length) else []

/-- `(?:w\s+)?`: continuation points of the optional group, greedy order
(group taken first, then skipped). -/
def optGroupAlts (w : String) (s : List Char) : List (List Char) :=
  litWsAlts w.data s ++ [s]

/-- First alternative on which the continuation succeeds. -/
def firstSome (f : List Char → Option α) : List (List Char) → Option α
  | [] => none
  | s :: rest =>
    match f s with
    | some r => some r
    | none => firstSome f rest

/-- `re.search`: try the position matcher at every start position,
leftmost match wins. -/
def scanFor (f : List Char → Option α) : List Char → Option α
  | [] => f []
  | c :: cs =>
    match f (c :: cs) with
    | some r => some r
    | none => scanFor f cs

/-- `\s+` then a mandatory word-separated continuation, for word sequences
such as `close\s+all` (the next token is never whitespace, so greedy
consumption needs no backtracking here). -/
def eatWs1 : List Char → Option (List Char)
  | [] => none
  | c :: cs => if c.isWhitespace then some (cs.dropWhile Char.isWhitespace) else none

/-! ### SafetyGuard (backend/core/agent/safety.py)

`\b(w1|w2|…)\b` whole-word search; one alternative may be a `\s+`-joined
word sequence (`close\s+all`). -/

/-- Match the words of one alternative, separated by `\s+`, returning the
rest of the input after the last word. -/
def matchToksB : List (List Char) → List Char → Option (List Char)
  | [], s => some s
  | [w], s => if w.isPrefixOf s then some (s.drop w.length) else none
  | w :: ws, s =>
    if w.isPrefixOf s then
      match eatWs1 (s.drop w.length) with
      | some r => matchToksB ws r
      | none => none
    else none

/-- `\b` before the match position. -/
def boundaryBefore : Option Char → Bool
  | none => true
  | some c => !isWordChar c

/-- `\b` after the match. -/
def boundaryAfter : List Char → Bool
  | [] => true
  | c :: _ => !isWordChar c

/-- One alternative of a `\b(...)\b` pattern matches at this position. -/
def matchAltAt (alt : List String) (s : List Char) : Bool :=
  match matchToksB (alt.map String.data) s with
  | some rest => boundaryAfter rest
  | none => false

/-- `re.search` for `\b(alt|alt|…)\b`: some alternative matches at some
position with word boundaries on both sides. -/
def searchWordFrom (alts : List (List String)) (prev : Option Char) : List Char → Bool
  | [] => false
  | c :: cs =>
    (boundaryBefore prev && alts.any (fun alt => matchAltAt alt (c :: cs)))
      || searchWordFrom alts (some c) cs

/-- One compiled pattern of the safety guard hits somewhere in the string. -/
def patternHit (alts : List (List String)) (s : List Char) : Bool :=
  searchWordFrom alts none s

/-- `SafetyGuard.SENSITIVE_PATTERNS`: each pattern is a list of
word-sequence alternatives. -/
def SENSITIVE_PATTERNS : List (List (List String)) :=
  [ [["delete"], ["remove"], ["trash"], ["erase"], ["clear"], ["empty"]],
    [["send"], ["submit"], ["post"], ["publish"], ["share"]],
    [["pay"], ["purchase"], ["buy"], ["transfer"], ["checkout"], ["order"]],
    [["quit"], ["shutdown"], ["restart"], ["reboot"], ["logout"], ["signout"],
     ["close", "all"]],
    [["format"], ["wipe"], ["reset"], ["uninstall"], ["permanently"]] ]

/-- `SafetyGuard.SAFE_PATTERNS`. -/
def SAFE_PATTERNS : List (List (List String)) :=
  [ [["open"], ["view"], ["show"], ["read"], ["look"], ["find"], ["search"],
     ["scroll"], ["navigate"]],
    [["copy"], ["select"], ["highlight"]] ]

/-- `SafetyGuard.requires_confirmation`: safe patterns first (short-circuit
false), then sensitive patterns (true), else false.  `re.IGNORECASE` is
modelled by lowering the command. -/
def requiresConfirmation (command : String) : Bool :=
  let s := lowerChars command.data
  if SAFE_PATTERNS.any (fun p => patternHit p s) then false
  else if SENSITIVE_PATTERNS.any (fun p => patternHit p s) then true
  else false

/-! ### UICache (backend/ui_cache.py)

The dict `{(app.lower(), target.lower()): (x, y, timestamp)}` is an
association list in insertion order (Python dict order); `time.time()` is an
explicit `now : Int` argument to `get`/`set`. -/

/-- Dict lookup on the association list. -/
def findVal (key : String × String) :
    List ((String × String) × Int × Int × Int) → Option (Int × Int × Int)
  | [] => none
  | (k, v) :: r => if k = key then some v else findVal key r

/-- Dict `del`: remove the entry of `key`. -/
def eraseKey (key : String × String) :
    List ((String × String) × Int × Int × Int) →
      List ((String × String) × Int × Int × Int)
  | [] => []
  | (k, v) :: r => if k = key then r else (k, v) :: eraseKey key r

/-- Dict assignment: overwrite in place, or append a new entry. -/
def insertKey (key : String × String) (v : Int × Int × Int) :
    List ((String × String) × Int × Int × Int) →
      List ((String × String) × Int × Int × Int)
  | [] => [(key, v)]
  | (k, w) :: r => if k = key then (k, v) :: r else (k, w) :: insertKey key v r

/-- Python `s.lower()` on a `String`. -/
def strLower (s : String) : String := String.mk (lowerChars s.data)

/-- `UICache.__init__`: entries, ttl (default 300), hit and miss counters. -/
structure UICache where
  cache : List ((String × String) × Int × Int × Int)
  ttl : Int := 300
  hits : Nat := 0
  misses : Nat := 0
deriving DecidableEq

/-- `UICache.get`: fresh entry hits (hit counter up), an entry with
`now - timestamp < ttl` false is deleted and counted as a miss, an absent
key is a miss.  Returns the looked-up coordinate and the updated cache. -/
def UICache.get (c : UICache) (now : Int) (appName target : String) :
    Option (Int × Int) × UICache :=
  let key := (strLower appName, strLower target)
  match findVal key c.cache with
  | some (x, y, ts) =>
    if now - ts < c.ttl then (some (x, y), { c with hits := c.hits + 1 })
    else (none, { c with cache := eraseKey key c.cache, misses := c.misses + 1 })
  | none => (none, { c with misses := c.misses + 1 })

/-- `UICache.set`: insert or overwrite, timestamped at call time. -/
def UICache.set (c : UICache) (now : Int) (appName target : String)
    (x y : Int) : UICache :=
  { c with cache := insertKey (strLower appName, strLower target) (x, y, now) c.cache }

/-- `UICache.stats` (the `hit_rate` percentage string, a float format, is
omitted; the claims use the entry and counter fields). -/
structure CacheStats where
  entries : Nat
  hits : Nat
  misses : Nat
  ttlSeconds : Int
deriving DecidableEq

def UICache.stats (c : UICache) : CacheStats :=
  { entries := c.cache.length, hits := c.hits, misses := c.misses,
    ttlSeconds := c.ttl }

/-! ### HybridRouter (backend/hybrid_router.py) -/

inductive ExecutionMethod where
  | cached
  | ocr
  | vlm
deriving DecidableEq

structure ExecutionPlan where
  method : ExecutionMethod
  target : Option String := none
  coordinates : Option (Int × Int) := none
  utterance : Option String := none
deriving DecidableEq

/-- `HybridRouter.COMPLEX_INDICATORS`. -/
def COMPLEX_INDICATORS : List String :=
  ["third", "second", "first", "last", "next", "previous",
   "red", "blue", "green", "large", "small", "icon",
   "image", "picture", "photo", "logo"]

/-- `HybridRouter._needs_vlm`: some indicator occurs in the lowered target. -/
def needsVlm (target : String) : Bool :=
  let l := lowerChars target.data
  COMPLEX_INDICATORS.any (fun ind => containsSub ind.data l)

/-- `(.+)$`: greedy nonempty capture to the end. -/
def fullTail (r : List Char) : Option (List Char) :=
  if r = [] then none else some r

/-- `(?:\s+button)?$` holds of this rest (whitespace then exactly
`button` to the end). -/
def isWsButtonEnd : List Char → Bool
  | [] => false
  | c :: cs => c.isWhitespace && ((cs.dropWhile Char.isWhitespace) = "button".data)

/-- The lazy `(.+?)` of `(.+?)(?:\s+button)?$`: grow the capture until the
optional suffix (or the end) matches. -/
def lazyBtnGo (acc : List Char) : List Char → List Char
  | [] => acc
  | c :: cs => if isWsButtonEnd (c :: cs) then acc else lazyBtnGo (acc ++ [c]) cs

/-- `(.+?)(?:\s+button)?$`: capture of the lazy group (`none` on empty rest). -/
def lazyButtonTail : List Char → Option (List Char)
  | [] => none
  | c :: cs => some (lazyBtnGo [c] cs)

/-- `^click\s+(?:on\s+)?(?:the\s+)?(.+)$` (and the same with `tap`),
anchored as `re.match` uses it: the captured group. -/
def clickTapAt (verb : String) (u : List Char) : Option (List Char) :=
  firstSome
    (fun r1 =>
      firstSome (fun r2 => firstSome fullTail (optGroupAlts "the" r2))
        (optGroupAlts "on" r1))
    (litWsAlts verb.data u)

/-- `^press\s+(?:the\s+)?(.+?)(?:\s+button)?$`, anchored: the captured group. -/
def pressButtonAt (u : List Char) : Option (List Char) :=
  firstSome
    (fun r1 => firstSome lazyButtonTail (optGroupAlts "the" r1))
    (litWsAlts "press".data u)

/-- `^select\s+(.+)$`, anchored: the captured group. -/
def selectAt (u : List Char) : Option (List Char) :=
  firstSome fullTail (litWsAlts "select".data u)

/-- `HybridRouter._extract_click_target`: first of the four `CLICK_PATTERNS`
that matches (via `re.match`), its group stripped. -/
def extractClickTarget (u : List Char) : Option (List Char) :=
  match clickTapAt "click" u with
  | some g => some (trimChars g)
  | none =>
    match clickTapAt "tap" u with
    | some g => some (trimChars g)
    | none =>
      match pressButtonAt u with
      | some g => some (trimChars g)
      | none =>
        match selectAt u with
        | some g => some (trimChars g)
        | none => none

/-- `HybridRouter.route`: extract a click target from the lowered, stripped
utterance; no target (or an empty one) falls back to the VLM tier; a target
with a complexity indicator is forced to the VLM tier before the cache is
consulted; otherwise a cache hit routes to the cached tier with the stored
coordinate and a miss to the OCR tier.  Returns the plan and the cache as
left by the lookup. -/
def route (c : UICache) (now : Int) (utterance : String) (appName : String) :
    ExecutionPlan × UICache :=
  let lower := trimChars (lowerChars utterance.data)
  match extractClickTarget lower with
  | some tgt =>
    if tgt = [] then ({ method := .vlm, utterance := some utterance }, c)
    else
      let target := String.mk tgt
      if needsVlm target then ({ method := .vlm, utterance := some utterance }, c)
      else
        let r := c.get now appName target
        match r.1 with
        | some xy =>
          ({ method := .cached, target := some target, coordinates := some xy }, r.2)
        | none => ({ method := .ocr, target := some target }, r.2)
  | none => ({ method := .vlm, utterance := some utterance }, c)

/-! ### AgentKernel data model (backend/core/agent/kernel.py) -/

/-- `ActionType`. -/
inductive ActionType where
  | click
  | doubleClick
  | rightClick
  | typeText
  | shortcut
  | scroll
  | speak
  | confirmRequired
  | unknown
deriving DecidableEq

/-- `UIElement` (backend/core/os/controller_base.py), restricted to the
fields the embedded kernel paths read: the label (matched by the planner)
and the bounds midpoint `center` (used by double-click). -/
structure UIElement where
  label : String
  center : Int × Int
deriving DecidableEq

/-- `ParsedContext` (backend/core/vision/screen_parser.py), restricted to
the fields the kernel reads: the numbered element mapping in insertion
order and the focused element number. -/
structure ScreenContext where
  elementMap : List (Nat × UIElement)
  focusedElementNumber : Option Nat
deriving DecidableEq

/-- Lookup in the numbered element mapping (`context.element_map[n]`). -/
def findNum (n : Nat) : List (Nat × UIElement) → Option UIElement
  | [] => none
  | (k, el) :: r => if k = n then some el else findNum n r

/-- `AgentAction` (the `confidence` float, set but never read by the
embedded paths, is omitted). -/
structure AgentAction where
  actionType : ActionType
  targetElement : Option Nat := none
  coordinates : Option (Int × Int) := none
  text : Option String := none
  shortcut : Option String := none
  direction : Option String := none
  reasoning : String := ""
deriving DecidableEq

/-- `AgentResult`. -/
structure AgentResult where
  success : Bool
  message : String
  actionTaken : Option AgentAction := none
  attempts : Nat := 1
  verificationPassed : Bool := false
  needsConfirmation : Bool := false
  confirmationPrompt : Option String := none
deriving DecidableEq

/-- Python `f"{v}"` on an optional string (`None` prints as `"None"`). -/
def optStr : Option String → String
  | some s => s
  | none => "None"

/-- The OS controller collaborator (backend/core/os: `click`,
`double_click`, `type_text`, `press_shortcut`, `scroll`, `click_element`),
each call reporting success or failure. -/
structure Controller where
  click : Int → Int → Bool
  doubleClick : Int → Int → Bool
  typeText : String → Bool
  pressShortcut : String → Bool
  scroll : String → Bool
  clickElement : UIElement → Bool

/-- One recorded invocation of the input-injection collaborator. -/
inductive ControllerCall where
  | click (x y : Int)
  | doubleClick (x y : Int)
  | typeText (s : String)
  | pressShortcut (s : String)
  | scroll (dir : String)
  | clickElement (el : UIElement)
deriving DecidableEq

/-- The kernel's environment: the sensing collaborator as a stream of
contexts (the k-th perceive call returns `perceive k`) and the OS
controller. -/
structure Env where
  perceive : Nat → ScreenContext
  ctrl : Controller

/-! ### AgentKernel planning (`AgentKernel._plan`) -/

/-- `re.search(r'click\s+(?:on\s+)?(?:element\s+)?(\d+)', …)` at one
position: the captured element number. -/
def digits1 (s : List Char) : Option Nat :=
  let ds := s.takeWhile Char.isDigit
  if ds = [] then none
  else some (ds.foldl (fun acc c => acc * 10 + (c.toNat - '0'.toNat)) 0)

def clickElemAt (s : List Char) : Option Nat :=
  firstSome
    (fun r1 =>
      firstSome (fun r2 => firstSome digits1 (optGroupAlts "element" r2))
        (optGroupAlts "on" r1))
    (litWsAlts "click".data s)

/-- `re.search(r'click\s+(?:on\s+)?(?:the\s+)?(.+?)(?:\s+button)?$', …)` at
one position: the captured label text (before `.strip()`). -/
def clickLabelAt (s : List Char) : Option (List Char) :=
  firstSome
    (fun r1 =>
      firstSome (fun r2 => firstSome lazyButtonTail (optGroupAlts "the" r2))
        (optGroupAlts "on" r1))
    (litWsAlts "click".data s)

/-- `["\']?`: continuation points of the optional opening quote, greedy
order. -/
def optQuoteAlts : List Char → List (List Char)
  | [] => [[]]
  | c :: cs => if c = '"' || c = '\'' then [cs, c :: cs] else [c :: cs]

/-- `["\']?$` holds of this rest. -/
def isQuoteEnd : List Char → Bool
  | [c] => c = '"' || c = '\''
  | _ => false

/-- The lazy `(.+?)` of `(.+?)["\']?$`. -/
def lazyQuoteGo (acc : List Char) : List Char → List Char
  | [] => acc
  | c :: cs => if isQuoteEnd (c :: cs) then acc else lazyQuoteGo (acc ++ [c]) cs

def typeTail : List Char → Option (List Char)
  | [] => none
  | c :: cs => some (lazyQuoteGo [c] cs)

/-- `re.search(r'type\s+["\']?(.+?)["\']?$', …)` at one position. -/
def typeAt (s : List Char) : Option (List Char) :=
  firstSome (fun r1 => firstSome typeTail (optQuoteAlts r1))
    (litWsAlts "type".data s)

/-- `re.search(r'scroll\s+(up|down|left|right)', …)` at one position, the
alternation tried in source order as prefixes (no trailing boundary). -/
def scrollAt (s : List Char) : Option String :=
  firstSome
    (fun r =>
      if "up".data.isPrefixOf r then some "up"
      else if "down".data.isPrefixOf r then some "down"
      else if "left".data.isPrefixOf r then some "left"
      else if "right".data.isPrefixOf r then some "right"
      else none)
    (litWsAlts "scroll".data s)

/-- `re.search(r'press\s+(.+)', …)` at one position: the greedy capture. -/
def pressAt (s : List Char) : Option (List Char) :=
  firstSome fullTail (litWsAlts "press".data s)

/-- The click-by-label branch of `_plan`: the label pattern must match and
some numbered element's lowered label must contain the stripped capture
(first such element in mapping order); otherwise `_plan` falls through. -/
def planLabelLookup (cl : List Char) (ctx : ScreenContext) :
    Option (Nat × String) :=
  match scanFor clickLabelAt cl with
  | none => none
  | some g =>
    let label := trimChars g
    match ctx.elementMap.find? (fun p => containsSub label (lowerChars p.2.label.data)) with
    | some (num, _) => some (num, String.mk label)
    | none => none

/-- The type / scroll / shortcut / unknown tail of `_plan`. -/
def planRest (cl : List Char) : AgentAction :=
  match scanFor typeAt cl with
  | some t =>
    { actionType := .typeText, text := some (String.mk t),
      reasoning := "Typing: " ++ String.mk t }
  | none =>
    match scanFor scrollAt cl with
    | some d => { actionType := .scroll, direction := some d,
                  reasoning := "Scrolling " ++ d }
    | none =>
      match scanFor pressAt cl with
      | some r =>
        let sc := String.mk (r.map (fun c => if c = ' ' then '+' else c))
        { actionType := .shortcut, shortcut := some sc,
          reasoning := "Pressing shortcut: " ++ sc }
      | none => { actionType := .unknown,
                  reasoning := "Could not understand command" }

/-- The pattern-matching part of `_plan`, applied to the lowered command. -/
def planPatterns (cl : List Char) (ctx : ScreenContext) : AgentAction :=
  match scanFor clickElemAt cl with
  | some n =>
    { actionType := .click, targetElement := some n,
      reasoning := "Clicking element " ++ toString n }
  | none =>
    match planLabelLookup cl ctx with
    | some (num, label) =>
      { actionType := .click, targetElement := some num,
        reasoning := "Found '" ++ label ++ "' as element " ++ toString num }
    | none => planRest cl

/-- `AgentKernel._plan`: the safety guard first (a sensitive command plans
to `confirm_required` carrying the original text), then the command
patterns on the lowered text. -/
def planAction (cmd : String) (ctx : ScreenContext) : AgentAction :=
  if requiresConfirmation cmd then
    { actionType := .confirmRequired, text := some cmd,
      reasoning := "Destructive action requires confirmation" }
  else planPatterns (lowerChars cmd.data) ctx

/-! ### AgentKernel execute / verify / adjust -/

/-- `AgentKernel._execute`, returning the reported success flag and the
trace of controller calls made.  Python truthiness is kept: an element
number `0` and empty strings are falsy, so those branches fall through
(`return False`) without a controller call. -/
def executeAction (a : AgentAction) (ctx : ScreenContext) (c : Controller) :
    Bool × List ControllerCall :=
  match a.actionType with
  | .click =>
    match a.targetElement with
    | some n =>
      if n ≠ 0 then
        match findNum n ctx.elementMap with
        | some el => (c.clickElement el, [.clickElement el])
        | none =>
          match a.coordinates with
          | some (x, y) => (c.click x y, [.click x y])
          | none => (false, [])
      else
        match a.coordinates with
        | some (x, y) => (c.click x y, [.click x y])
        | none => (false, [])
    | none =>
      match a.coordinates with
      | some (x, y) => (c.click x y, [.click x y])
      | none => (false, [])
  | .doubleClick =>
    match a.targetElement with
    | some n =>
      if n ≠ 0 then
        match findNum n ctx.elementMap with
        | some el => (c.doubleClick el.center.1 el.center.2,
                      [.doubleClick el.center.1 el.center.2])
        | none => (false, [])
      else (false, [])
    | none => (false, [])
  | .typeText =>
    match a.text with
    | some t => if t ≠ "" then (c.typeText t, [.typeText t]) else (false, [])
    | none => (false, [])
  | .shortcut =>
    match a.shortcut with
    | some sc => if sc ≠ "" then (c.pressShortcut sc, [.pressShortcut sc])
                 else (false, [])
    | none => (false, [])
  | .scroll =>
    match a.direction with
    | some d => if d ≠ "" then (c.scroll d, [.scroll d]) else (false, [])
    | none => (false, [])
  | _ => (false, [])

/-- `AgentKernel._verify` given the fresh context its internal re-perceive
obtained: every branch of the source returns `True` (click with a truthy
element number present in the old mapping checks element-count and focus
changes but ends in `return True`; coordinate clicks, type, scroll and
shortcut are optimistic). -/
def verifyAction (a : AgentAction) (oldCtx newCtx : ScreenContext) : Bool :=
  match a.actionType with
  | .click =>
    match a.targetElement with
    | some n =>
      if n ≠ 0 then
        match findNum n oldCtx.elementMap with
        | some _ =>
          if newCtx.elementMap.length ≠ oldCtx.elementMap.length then true
          else if newCtx.focusedElementNumber ≠ oldCtx.focusedElementNumber then true
          else true
        | none => true
      else true
    | none => true
  | .typeText => true
  | .scroll => true
  | .shortcut => true
  | _ => true

/-- `AgentKernel._adjust_strategy`: a coordinate click is perturbed by
`offset = attempt * 5` on both axes; every other action is unchanged. -/
def adjustStrategy (a : AgentAction) (attempt : Nat) : AgentAction :=
  if a.actionType = .click then
    match a.coordinates with
    | some (x, y) =>
      let offset : Int := (attempt : Int) * 5
      { a with coordinates := some (x + offset, y + offset) }
    | none => a
  else a

/-- `AgentKernel._generate_success_message`. -/
def successMessage (a : AgentAction) : String :=
  match a.actionType with
  | .click =>
    match a.targetElement with
    | some n => if n ≠ 0 then "Clicked element " ++ toString n
                else "Clicked successfully"
    | none => "Clicked successfully"
  | .typeText => "Typed: " ++ optStr a.text
  | .scroll => "Scrolled " ++ optStr a.direction
  | .shortcut => "Pressed " ++ optStr a.shortcut
  | _ => "Action completed"

/-! ### AgentKernel main loop (`process_command`) -/

/-- `AgentKernel.MAX_RETRIES`. -/
def MAX_RETRIES : Nat := 3

/-- One `for attempt in range(1, MAX_RETRIES + 1)` body and its
continuation.  `fuel` counts the loop iterations left (starting at
`MAX_RETRIES`); `attempt` is the source's loop variable; `pcount` indexes
the perceive stream; `acc` is the controller-call trace so far.  The
source's `_adjust_strategy` mutates the `action` object, but the next
iteration rebinds `action` from a fresh `_plan` call, so the adjusted value
is dropped here exactly as the source drops it.  Running out of `fuel` is
the source's fall-through after the `for` loop (line 200). -/
def loopGo (env : Env) (planner : String → ScreenContext → AgentAction)
    (cmd : String) :
    Nat → Nat → Nat → List ControllerCall → AgentResult × List ControllerCall
  | 0, _attempt, _pcount, acc =>
    ({ success := false,
       message := "I'm having trouble completing this action. Is the target visible on screen?",
       attempts := MAX_RETRIES }, acc)
  | fuel + 1, attempt, pcount, acc =>
    let ctx := env.perceive pcount
    let action := planner cmd ctx
    if action.actionType = .confirmRequired then
      ({ success := false,
         message := "Confirmation needed: " ++ optStr action.text,
         actionTaken := some action, attempts := attempt,
         needsConfirmation := true,
         confirmationPrompt :=
           some ("I'm about to " ++ optStr action.text ++ ". Say 'Confirm' or 'Cancel'.") },
       acc)
    else
      let er := executeAction action ctx env.ctrl
      let acc2 := acc ++ er.2
      if er.1 = false then
        if attempt < MAX_RETRIES then
          let _adjusted := adjustStrategy action attempt
          loopGo env planner cmd fuel (attempt + 1) (pcount + 1) acc2
        else
          ({ success := false,
             message := "Failed to execute after " ++ toString attempt ++ " attempts",
             actionTaken := some action, attempts := attempt }, acc2)
      else
        let newCtx := env.perceive (pcount + 1)
        if verifyAction action ctx newCtx then
          ({ success := true, message := successMessage action,
             actionTaken := some action, attempts := attempt,
             verificationPassed := true }, acc2)
        else
          if attempt < MAX_RETRIES then
            loopGo env planner cmd fuel (attempt + 1) (pcount + 2) acc2
          else
            ({ success := false,
               message := "I'm having trouble completing this action. Is the target visible on screen?",
               attempts := MAX_RETRIES }, acc2)

/-- `AgentKernel.process_command` with the planner as a parameter
(`_plan` is one instantiation; the spec treats planning as a collaborator
contract). -/
def processCommandWith (env : Env)
    (planner : String → ScreenContext → AgentAction) (cmd : String) :
    AgentResult × List ControllerCall :=
  loopGo env planner cmd MAX_RETRIES 1 0 []

/-- `AgentKernel.process_command` as shipped: the loop over `_plan`. -/
def processCommand (env : Env) (cmd : String) :
    AgentResult × List ControllerCall :=
  processCommandWith env planAction cmd

/-- `AgentKernel.process_with_confirmation`: `confirmed = false` cancels
with zero attempts and no calls; `confirmed = true` re-perceives, re-plans,
unconditionally coerces the action type to `click` (bypassing the
confirmation classification) and executes exactly once, reporting with
`attempts = 1`. -/
def processWithConfirmation (env : Env) (cmd : String) (confirmed : Bool) :
    AgentResult × List ControllerCall :=
  if !confirmed then
    ({ success := false, message := "Action cancelled.", attempts := 0 }, [])
  else
    let ctx := env.perceive 0
    let action0 := planAction cmd ctx
    let action := { action0 with actionType := ActionType.click }
    let er := executeAction action ctx env.ctrl
    ({ success := er.1,
       message := if er.1 then "Action confirmed and executed." else "Action failed.",
       actionTaken := some action, attempts := 1 }, er.2)

/-! ### Concrete fixtures for witnesses and counterexamples -/

def ctxEmpty : ScreenContext := { elementMap := [], focusedElementNumber := none }

def elemOK : UIElement := { label := "OK", center := (5, 6) }

def ctxOK : ScreenContext := { elementMap := [(3, elemOK)], focusedElementNumber := none }

/-- A context whose element map contains the key `0`. -/
def ctxZero : ScreenContext := { elementMap := [(0, elemOK)], focusedElementNumber := none }

/-- An input-injection collaborator that always reports failure. -/
def ctrlAllFalse : Controller :=
  { click := fun _ _ => false, doubleClick := fun _ _ => false,
    typeText := fun _ => false, pressShortcut := fun _ => false,
    scroll := fun _ => false, clickElement := fun _ => false }

/-- An input-injection collaborator that always reports success. -/
def ctrlAllTrue : Controller :=
  { click := fun _ _ => true, doubleClick := fun _ _ => true,
    typeText := fun _ => true, pressShortcut := fun _ => true,
    scroll := fun _ => true, clickElement := fun _ => true }

def envEmptyFalse : Env := { perceive := fun _ => ctxEmpty, ctrl := ctrlAllFalse }

def envOKFalse : Env := { perceive := fun _ => ctxOK, ctrl := ctrlAllFalse }

def envOKTrue : Env := { perceive := fun _ => ctxOK, ctrl := ctrlAllTrue }

/-- A planner collaborator that always plans a coordinate click at
`(100, 200)` (the planner is an external contract per the spec; the shipped
`_plan` never emits coordinates). -/
def coordPlanner : String → ScreenContext → AgentAction :=
  fun _ _ => { actionType := .click, coordinates := some (100, 200) }

/-- A planner collaborator that always plans typing `"hi"`. -/
def typePlanner : String → ScreenContext → AgentAction :=
  fun _ _ => { actionType := .typeText, text := some "hi" }

/-! ### Helper lemmas -/

theorem findVal_insertKey (key : String × String) (v : Int × Int × Int) :
    ∀ l, findVal key (insertKey key v l) = some v
  | [] => by simp [insertKey, findVal]
  | (k, w) :: r => by
    by_cases h : k = key
    · simp [insertKey, findVal, h]
    · simp [insertKey, findVal, h, findVal_insertKey key v r]

theorem eraseKey_length (key : String × String) :
    ∀ (l : List ((String × String) × Int × Int × Int)) (v : Int × Int × Int),
      findVal key l = some v → (eraseKey key l).length + 1 = l.length
  | [], v, h => by simp [findVal] at h
  | (k, w) :: r, v, h => by
    by_cases hk : k = key
    · simp [eraseKey, hk]
    · have h' : findVal key r = some v := by simpa [findVal, hk] using h
      simp [eraseKey, hk]
      exact eraseKey_length key r v h'

/-- Every branch of `_verify` returns `True`. -/
theorem verifyAction_eq_true (a : AgentAction) (c₁ c₂ : ScreenContext) :
    verifyAction a c₁ c₂ = true := by
  unfold verifyAction
  repeat' split
  all_goals rfl

/-- With an always-failing controller, `_execute` reports failure for every
action. -/
theorem executeAction_fst_false (c : Controller)
    (h1 : ∀ x y, c.click x y = false) (h2 : ∀ x y, c.doubleClick x y = false)
    (h3 : ∀ s, c.typeText s = false) (h4 : ∀ s, c.pressShortcut s = false)
    (h5 : ∀ s, c.scroll s = false) (h6 : ∀ e, c.clickElement e = false)
    (a : AgentAction) (ctx : ScreenContext) :
    (executeAction a ctx c).1 = false := by
  unfold executeAction
  repeat' split
  all_goals first
    | rfl
    | simp [h1, h2, h3, h4, h5, h6]

/-- The pattern-matching part of `_plan` never yields `confirm_required`. -/
theorem planPatterns_ne_confirm (cl : List Char) (ctx : ScreenContext) :
    (planPatterns cl ctx).actionType ≠ ActionType.confirmRequired := by
  unfold planPatterns planRest
  repeat' split
  all_goals simp

/-- A command the safety guard classifies safe never plans to
`confirm_required`. -/
theorem planAction_ne_confirm (cmd : String) (ctx : ScreenContext)
    (h : requiresConfirmation cmd = false) :
    (planAction cmd ctx).actionType ≠ ActionType.confirmRequired := by
  unfold planAction
  simp [h, planPatterns_ne_confirm]

/-! ### Claim theorems -/

/-- C7: cache round-trip — `set(app, target, x, y)` followed immediately by
`get(app, target)` returns `(x, y)` (for a positive configured TTL); and an
entry whose age exceeds the TTL makes `get` return absent, deletes the
entry (one fewer in `stats().entries`), and counts the lookup as a miss,
not a hit. -/
theorem cache_roundtrip_and_ttl_eviction :
    (∀ (c : UICache) (now : Int) (app target : String) (x y : Int),
       0 < c.ttl →
       ((c.set now app target x y).get now app target).1 = some (x, y))
    ∧ (∀ (c : UICache) (now : Int) (app target : String) (x y ts : Int),
       findVal (strLower app, strLower target) c.cache = some (x, y, ts) →
       c.ttl < now - ts →
       (c.get now app target).1 = none
         ∧ ((c.get now app target).2.stats).entries + 1 = c.stats.entries
         ∧ (c.get now app target).2.misses = c.misses + 1
         ∧ (c.get now app target).2.hits = c.hits) := by
  constructor
  · intro c now app target x y h
    simp [UICache.set, UICache.get, findVal_insertKey, h]
  · intro c now app target x y ts hfind hexp
    have hlt : ¬(now - ts < c.ttl) := lt_asymm hexp
    refine ⟨?_, ?_, ?_, ?_⟩ <;>
      simp [UICache.get, hfind, hlt, UICache.stats]
    exact eraseKey_length _ _ _ hfind

/-- C7 witness: the round-trip at `("App", "OK", 2, 3)` on an empty cache
with the default TTL, and the TTL eviction at an expired entry. -/
theorem cache_roundtrip_and_ttl_eviction_witness :
    (0 < ({ cache := [] } : UICache).ttl
      ∧ ((({ cache := [] } : UICache).set 1000 "App" "OK" 2 3).get 1000 "App" "OK").1 = some (2, 3))
    ∧ (findVal ("app", "ok") ({ cache := [(("app", "ok"), 2, 3, 100)] } : UICache).cache = some (2, 3, 100)
      ∧ ({ cache := [(("app", "ok"), 2, 3, 100)] } : UICache).ttl < 500 - 100
      ∧ (({ cache := [(("app", "ok"), 2, 3, 100)] } : UICache).get 500 "App" "OK").1 = none
      ∧ ((({ cache := [(("app", "ok"), 2, 3, 100)] } : UICache).get 500 "App" "OK").2.stats).entries + 1
          = ({ cache := [(("app", "ok"), 2, 3, 100)] } : UICache).stats.entries
      ∧ (({ cache := [(("app", "ok"), 2, 3, 100)] } : UICache).get 500 "App" "OK").2.misses
          = ({ cache := [(("app", "ok"), 2, 3, 100)] } : UICache).misses + 1
      ∧ (({ cache := [(("app", "ok"), 2, 3, 100)] } : UICache).get 500 "App" "OK").2.hits
          = ({ cache := [(("app", "ok"), 2, 3, 100)] } : UICache).hits) := by
  refine ⟨⟨by decide, cache_roundtrip_and_ttl_eviction.1 _ 1000 "App" "OK" 2 3 (by decide)⟩,
          ⟨by decide, by decide, ?_⟩⟩
  have h := cache_roundtrip_and_ttl_eviction.2
    { cache := [(("app", "ok"), 2, 3, 100)] } 500 "App" "OK" 2 3 100 (by decide) (by decide)
  exact ⟨h.1, h.2.1, h.2.2.1, h.2.2.2⟩

/-- C8: for every cache state, time and app name, routing the utterance
"click the third icon" yields the full-visual (VLM) tier plan carrying the
raw utterance, leaving the cache untouched: the complexity-indicator
override fires before the cache is consulted. -/
theorem route_third_icon_forces_vlm :
    ∀ (c : UICache) (now : Int) (app : String),
      route c now "click the third icon" app =
        ({ method := .vlm, utterance := some "click the third icon" }, c) := by
  intro c now app
  have h1 : extractClickTarget (trimChars (lowerChars "click the third icon".data))
      = some "third icon".data := by decide
  have h2 : needsVlm (String.mk "third icon".data) = true := by decide
  simp [route, h1, h2]

/-- C10: `_execute` tests the element number for truthiness, so a click
plan naming element `0` with no coordinates returns failure without any
controller call, even when the context's element map contains the key `0`;
such a plan can never succeed. -/
theorem element_zero_click_always_fails :
    ∀ (ctx : ScreenContext) (c : Controller),
      findNum 0 ctx.elementMap ≠ none →
      executeAction { actionType := ActionType.click, targetElement := some 0 } ctx c
        = (false, []) := by
  intro ctx c _h
  rfl

/-- C10 witness: the context `{0 ↦ elemOK}` holds key `0`, yet the click on
element `0` fails. -/
theorem element_zero_click_always_fails_witness :
    findNum 0 ctxZero.elementMap ≠ none ∧
    executeAction { actionType := ActionType.click, targetElement := some 0 } ctxZero ctrlAllTrue
      = (false, []) :=
  ⟨by decide, element_zero_click_always_fails ctxZero ctrlAllTrue (by decide)⟩

/-- C6: `process_with_confirmation` with `confirmed = false` cancels with
`success = false`, `attempts = 0` and no controller call; with
`confirmed = true` it re-perceives, re-plans, coerces the action to a click
(bypassing the confirmation classification) and executes exactly once —
the entire call trace is that one execute's trace and `attempts = 1`
regardless of the outcome. -/
theorem process_with_confirmation_semantics :
    ∀ (env : Env) (cmd : String),
      processWithConfirmation env cmd false =
        ({ success := false, message := "Action cancelled.", attempts := 0 }, [])
      ∧ (processWithConfirmation env cmd true).1.attempts = 1
      ∧ (processWithConfirmation env cmd true).1.actionTaken =
          some { planAction cmd (env.perceive 0) with actionType := ActionType.click }
      ∧ (processWithConfirmation env cmd true).1.success =
          (executeAction { planAction cmd (env.perceive 0) with actionType := ActionType.click }
            (env.perceive 0) env.ctrl).1
      ∧ (processWithConfirmation env cmd true).2 =
          (executeAction { planAction cmd (env.perceive 0) with actionType := ActionType.click }
            (env.perceive 0) env.ctrl).2 := by
  intro env cmd
  exact ⟨rfl, rfl, rfl, rfl, rfl⟩

/-- C1: every command the safety guard classifies sensitive makes
`process_command` return `needs_confirmation = true`, `success = false` and
the prompt "I'm about to {command}. Say 'Confirm' or 'Cancel'.", with an
empty controller-call trace: no input-injection collaborator function is
applied during the invocation. -/
theorem sensitive_command_gated_without_execution :
    ∀ (env : Env) (cmd : String),
      requiresConfirmation cmd = true →
      (processCommand env cmd).1.needsConfirmation = true
      ∧ (processCommand env cmd).1.success = false
      ∧ (processCommand env cmd).1.confirmationPrompt =
          some ("I'm about to " ++ cmd ++ ". Say 'Confirm' or 'Cancel'.")
      ∧ (processCommand env cmd).2 = [] := by
  intro env cmd h
  simp [processCommand, processCommandWith, MAX_RETRIES, loopGo, planAction, h, optStr]

/-- C1 witness: the sensitive command "delete this file". -/
theorem sensitive_command_gated_without_execution_witness :
    requiresConfirmation "delete this file" = true
    ∧ ((processCommand envEmptyFalse "delete this file").1.needsConfirmation = true
      ∧ (processCommand envEmptyFalse "delete this file").1.success = false
      ∧ (processCommand envEmptyFalse "delete this file").1.confirmationPrompt =
          some ("I'm about to " ++ "delete this file" ++ ". Say 'Confirm' or 'Cancel'.")
      ∧ (processCommand envEmptyFalse "delete this file").2 = []) :=
  ⟨by decide,
   sensitive_command_gated_without_execution envEmptyFalse "delete this file" (by decide)⟩

/-- C5: with an input-injection collaborator that always reports failure
and a command planned to a non-confirmation action, `process_command`
returns `attempts = MAX_RETRIES = 3` and `success = false`. -/
theorem always_failing_controller_exhausts_retries :
    ∀ (env : Env) (cmd : String),
      requiresConfirmation cmd = false →
      (∀ x y, env.ctrl.click x y = false) →
      (∀ x y, env.ctrl.doubleClick x y = false) →
      (∀ s, env.ctrl.typeText s = false) →
      (∀ s, env.ctrl.pressShortcut s = false) →
      (∀ s, env.ctrl.scroll s = false) →
      (∀ e, env.ctrl.clickElement e = false) →
      (processCommand env cmd).1.attempts = MAX_RETRIES
      ∧ MAX_RETRIES = 3
      ∧ (processCommand env cmd).1.success = false := by
  intro env cmd hsafe h1 h2 h3 h4 h5 h6
  have hplan : ∀ ctx, ((planAction cmd ctx).actionType = ActionType.confirmRequired) = False :=
    fun ctx => eq_false (planAction_ne_confirm cmd ctx hsafe)
  have hexec : ∀ (a : AgentAction) (ctx : ScreenContext),
      (executeAction a ctx env.ctrl).1 = false :=
    fun a ctx => executeAction_fst_false env.ctrl h1 h2 h3 h4 h5 h6 a ctx
  simp [processCommand, processCommandWith, MAX_RETRIES, loopGo, hplan, hexec]

/-- C5 witness: "click ok" against a context with an "OK" element and an
all-failing controller. -/
theorem always_failing_controller_exhausts_retries_witness :
    requiresConfirmation "click ok" = false
    ∧ ((processCommand envOKFalse "click ok").1.attempts = MAX_RETRIES
      ∧ MAX_RETRIES = 3
      ∧ (processCommand envOKFalse "click ok").1.success = false) :=
  ⟨by decide,
   always_failing_controller_exhausts_retries envOKFalse "click ok" (by decide)
     (fun _ _ => rfl) (fun _ _ => rfl) (fun _ => rfl) (fun _ => rfl)
     (fun _ => rfl) (fun _ => rfl)⟩

/-- C4 (counterexample): the utterance "hello" plans to the `unknown`
action — a classification failure — yet `process_command` retries it: the
result reports `attempts = 3` (not a single-pass speak/unknown result) with
the execute-failure message. -/
theorem unknown_command_is_retried :
    (planAction "hello" (envEmptyFalse.perceive 0)).actionType = ActionType.unknown
    ∧ (processCommand envEmptyFalse "hello").1.attempts = 3
    ∧ (processCommand envEmptyFalse "hello").1.success = false
    ∧ (processCommand envEmptyFalse "hello").1.message = "Failed to execute after 3 attempts" := by
  decide

/-- C4 (amended): an utterance whose plan is the `unknown` action fails the
execute step on every attempt and is retried like any execute failure:
`process_command` returns `success = false`, `attempts = 3`, the message
"Failed to execute after 3 attempts", and makes no controller call. -/
theorem unknown_plan_retried_to_failure :
    ∀ (env : Env) (cmd : String),
      (∀ k, (planAction cmd (env.perceive k)).actionType = ActionType.unknown) →
      (processCommand env cmd).1.success = false
      ∧ (processCommand env cmd).1.attempts = 3
      ∧ (processCommand env cmd).1.message = "Failed to execute after 3 attempts"
      ∧ (processCommand env cmd).2 = [] := by
  intro env cmd h
  have hne : ∀ k, ((planAction cmd (env.perceive k)).actionType = ActionType.confirmRequired) = False :=
    fun k => by rw [h k]; simp
  have hexec : ∀ k,
      executeAction (planAction cmd (env.perceive k)) (env.perceive k) env.ctrl = (false, []) :=
    fun k => by
      unfold executeAction
      rw [h k]
  have hmsg : ("Failed to execute after " ++ toString (3 : Nat) ++ " attempts")
      = "Failed to execute after 3 attempts" := by decide
  simp [processCommand, processCommandWith, MAX_RETRIES, loopGo, hne, hexec, hmsg]

/-- Evaluation of the unknown plan at the concrete fixture (used to
discharge the witness hypothesis). -/
theorem planAction_hello_unknown :
    (planAction "hello" ctxEmpty).actionType = ActionType.unknown := by decide

/-- C4 witness (of the amended claim): the utterance "hello". -/
theorem unknown_plan_retried_to_failure_witness :
    (∀ k, (planAction "hello" (envEmptyFalse.perceive k)).actionType = ActionType.unknown)
    ∧ ((processCommand envEmptyFalse "hello").1.success = false
      ∧ (processCommand envEmptyFalse "hello").1.attempts = 3
      ∧ (processCommand envEmptyFalse "hello").1.message = "Failed to execute after 3 attempts"
      ∧ (processCommand envEmptyFalse "hello").2 = []) :=
  ⟨fun _ => planAction_hello_unknown,
   unknown_plan_retried_to_failure envEmptyFalse "hello" (fun _ => planAction_hello_unknown)⟩

/-- C9: the verify step returns `true` for every action and every pair of
contexts; consequently, on any attempt whose plan is not gated and whose
execute step reports success, the loop terminates on that same attempt with
`success = true` and `verification_passed = true` — the
verification-failure retry branch is never taken. -/
theorem verify_always_true_success_terminates :
    (∀ (a : AgentAction) (c₁ c₂ : ScreenContext), verifyAction a c₁ c₂ = true)
    ∧ (∀ (env : Env) (planner : String → ScreenContext → AgentAction)
         (cmd : String) (fuel attempt pcount : Nat) (acc : List ControllerCall),
       (planner cmd (env.perceive pcount)).actionType ≠ ActionType.confirmRequired →
       (executeAction (planner cmd (env.perceive pcount)) (env.perceive pcount) env.ctrl).1 = true →
       loopGo env planner cmd (fuel + 1) attempt pcount acc =
         ({ success := true,
            message := successMessage (planner cmd (env.perceive pcount)),
            actionTaken := some (planner cmd (env.perceive pcount)),
            attempts := attempt, verificationPassed := true },
          acc ++ (executeAction (planner cmd (env.perceive pcount)) (env.perceive pcount) env.ctrl).2)) := by
  refine ⟨verifyAction_eq_true, ?_⟩
  intro env planner cmd fuel attempt pcount acc hne hex
  simp [loopGo, hne, hex, verifyAction_eq_true]

/-- C9 witness: a type-action planner against an always-succeeding
controller terminates on attempt 1 with the verified success result. -/
theorem verify_always_true_success_terminates_witness :
    ((typePlanner "go" (envOKTrue.perceive 0)).actionType ≠ ActionType.confirmRequired)
    ∧ ((executeAction (typePlanner "go" (envOKTrue.perceive 0)) (envOKTrue.perceive 0) envOKTrue.ctrl).1 = true)
    ∧ loopGo envOKTrue typePlanner "go" 3 1 0 [] =
        ({ success := true,
           message := successMessage (typePlanner "go" (envOKTrue.perceive 0)),
           actionTaken := some (typePlanner "go" (envOKTrue.perceive 0)),
           attempts := 1, verificationPassed := true },
         [] ++ (executeAction (typePlanner "go" (envOKTrue.perceive 0)) (envOKTrue.perceive 0) envOKTrue.ctrl).2) :=
  ⟨by decide, by decide,
   verify_always_true_success_terminates.2 envOKTrue typePlanner "go" 2 1 0 []
     (by decide) (by decide)⟩

/-- C2: evaluation at the failing input — the safety guard classifies
"click the submit button" as sensitive (no SAFE pattern contains "click",
so the sensitive keyword "submit" decides), although the source's own test
expects it safe. -/
theorem click_submit_button_classified_sensitive :
    requiresConfirmation "click the submit button" = true := by decide

/-- C3: evaluation at the failing input — with a planner that plans a
coordinate click at `(100, 200)` and an always-failing controller, all
three attempts dispatch `click 100 200`: `_adjust_strategy` would nudge the
coordinate to `(105, 205)` after attempt 1, but the next iteration re-plans
and the adjusted action is dropped, so no retry uses the perturbed
coordinate. -/
theorem retry_reuses_original_coordinates :
    (processCommandWith envEmptyFalse coordPlanner "click there").2 =
      [ControllerCall.click 100 200, ControllerCall.click 100 200, ControllerCall.click 100 200]
    ∧ adjustStrategy (coordPlanner "click there" (envEmptyFalse.perceive 0)) 1 =
        { actionType := ActionType.click, coordinates := some (105, 205) } := by
  decide
